import Mathlib

/-!
Shallow embedding of the authentication and interaction core of the FastAPI
social backend in src/main.py: password hashing, JWT issuance and
verification, the authentication gate, signup, login, and the like toggle.

Modelling conventions:
- Times are integers (seconds since the epoch); the current time is passed
  explicitly where the source calls datetime.now.
- Mongo ObjectId values are natural numbers; the string rendering of ids that
  the source performs (str(ObjectId)) is a bijection and is elided.
- The document database (the database module is not under src/) is a pure
  store value threaded through the operations; db is assumed connected, so
  the "Database not connected" 500 branches of the source are not modelled.
- Fallible handlers return Except HTTPError.
-/

/-- Modelled from the spec: the bcrypt digest computed by passlib, an external
library. It is modelled as an ideal collision-free keyed digest, represented
by the (salt, plaintext) pair itself: equal inputs give equal digests and
distinct inputs give distinct digests, which realises the spec phrase "false
with overwhelming probability" exactly. -/
def bcryptDigest (salt : Nat) (plaintext : String) : Nat × String :=
  (salt, plaintext)

/-- A bcrypt hash value as stored: it embeds the salt and the digest computed
with that salt (src/main.py line 21 uses a passlib CryptContext with the
bcrypt scheme, whose hash strings embed their salt). -/
structure BcryptHash where
  salt : Nat
  digest : Nat × String
deriving DecidableEq

/-- src/main.py lines 49-50, get_password_hash: pwd_context.hash draws a fresh
random salt per call; the embedding is pure, so the salt is an explicit
argument. -/
def get_password_hash (salt : Nat) (password : String) : BcryptHash :=
  ⟨salt, bcryptDigest salt password⟩

/-- src/main.py lines 45-46, verify_password: pwd_context.verify recomputes
the digest with the salt embedded in the stored hash and compares; the result
is a Bool, not an exception. -/
def verify_password (plain_password : String) (hashed_password : BcryptHash) : Bool :=
  decide (hashed_password.digest = bcryptDigest hashed_password.salt plain_password)

/-- src/main.py line 17: the signing secret (default of os.getenv). -/
def SECRET_KEY : String := "dev-secret-key"

/-- src/main.py line 18. -/
def ALGORITHM : String := "HS256"

/-- src/main.py line 19: token lifetime in minutes (24 hours). -/
def ACCESS_TOKEN_EXPIRE_MINUTES : Int := 60 * 24

/-- The JWT claims the source actually writes and reads: a "sub" claim
(absent when the payload carries no subject) and the "exp" claim added by
create_access_token. -/
structure JwtPayload where
  sub : Option Nat
  exp : Int
deriving DecidableEq

/-- Modelled from the spec: the HS256 signature over the payload, produced by
python-jose, an external library. Ideal MAC model: a signature is determined
exactly by the key and the signed payload, and two signatures are equal iff
key and payload agree. -/
structure JwtSig where
  key : String
  signedPayload : JwtPayload
deriving DecidableEq

/-- Modelled from the spec: jwt.encode signing step (ideal MAC). -/
def jwtSign (secret : String) (payload : JwtPayload) : JwtSig :=
  ⟨secret, payload⟩

/-- A serialized token: either a well-formed signed payload or a string that
does not deserialize as a JWT at all. -/
inductive JwtToken where
  | signed (payload : JwtPayload) (sig : JwtSig)
  | malformed (raw : String)
deriving DecidableEq

/-- The distinct internal failure causes of python-jose jwt.decode; all of
them extend the JWTError class that src/main.py line 72 catches. -/
inductive JWTError where
  | malformedToken
  | invalidSignature
  | expiredSignature
deriving DecidableEq

/-- Modelled from the spec: python-jose jwt.decode as called at src/main.py
line 68: deserialization and signature check first, then the expiry check,
which rejects exactly when the expiry lies strictly in the past. -/
def jwt_decode (secret : String) (now : Int) (token : JwtToken) :
    Except JWTError JwtPayload :=
  match token with
  | .malformed _ => .error .malformedToken
  | .signed payload sig =>
    if sig ≠ jwtSign secret payload then .error .invalidSignature
    else if payload.exp < now then .error .expiredSignature
    else .ok payload

/-- src/main.py line 55, the expression (expires_delta or
timedelta(minutes=ACCESS_TOKEN_EXPIRE_MINUTES)): a Python timedelta is falsy
exactly when it is zero, so both a missing expires_delta and an explicit zero
one select the 24-hour default; any other delta (including a negative one) is
truthy and is used as given. Deltas are in seconds (timedelta(minutes=m)
lasts 60*m seconds). -/
def orDefaultDelta (expires_delta : Option Int) : Int :=
  match expires_delta with
  | none => 60 * ACCESS_TOKEN_EXPIRE_MINUTES
  | some d => if d = 0 then 60 * ACCESS_TOKEN_EXPIRE_MINUTES else d

/-- src/main.py lines 53-58, create_access_token: every call site passes the
dict with the single key "sub", so the data argument is modelled as the
subject; now is the value of datetime.now(timezone.utc). -/
def create_access_token (sub : Option Nat) (expires_delta : Option Int)
    (now : Int) : JwtToken :=
  let expire : Int := now + orDefaultDelta expires_delta
  .signed ⟨sub, expire⟩ (jwtSign SECRET_KEY ⟨sub, expire⟩)

/-- An HTTPException as raised by the handlers: status code, detail string and
the optional WWW-Authenticate challenge header. -/
structure HTTPError where
  status : Nat
  detail : String
  wwwAuthenticate : Option String
deriving DecidableEq

/-- src/main.py lines 62-66: the single exception value used for every
verification failure inside the gate. -/
def credentials_exception : HTTPError :=
  ⟨401, "Could not validate credentials", some "Bearer"⟩

/-- Modelled from the spec: the FastAPI OAuth2PasswordBearer dependency
(src/main.py line 22), an external framework component: a request with no
bearer token in the Authorization header is rejected before the gate body
runs, with status 401, detail "Not authenticated" and a Bearer challenge. -/
def missingTokenRejection : HTTPError :=
  ⟨401, "Not authenticated", some "Bearer"⟩

/-- A value stored in a user document field: a string or a password hash. -/
inductive DVal where
  | dstr (s : String)
  | dhash (h : BcryptHash)
deriving DecidableEq

/-- Reading a key of a schemaless Mongo document (dict access). -/
def dictGet (doc : List (String × DVal)) (key : String) : Option DVal :=
  (doc.find? fun kv => kv.1 = key).map fun kv => kv.2

/-- dict.pop: removes the entry with the given key (keys are unique in a
Python dict, so filtering is equivalent). -/
def dictPop (doc : List (String × DVal)) (key : String) : List (String × DVal) :=
  doc.filter fun kv => kv.1 ≠ key

/-- A document of the user collection: its ObjectId and its fields. -/
structure StoredUser where
  oid : Nat
  fields : List (String × DVal)
deriving DecidableEq

/-- The user collection: the id the next insert receives, and the documents
in insertion order (pymongo find_one returns the first match in natural
order). -/
structure UserStore where
  nextId : Nat
  docs : List StoredUser
deriving DecidableEq

/-- Modelled from the spec: the signup request model of the social backend.
src/main.py line 14 imports User (and PublicUser, Post, Comment, Like,
PostOut, CommentOut) from the social schemas module, which is not under src/:
src/schemas.py holds the shop-API schemas and defines none of these models.
Per the spec the user carries a unique username, a unique email, the password
credential and profile fields (one representative profile field is kept). -/
structure UserInput where
  username : String
  email : String
  full_name : String
  password : String
deriving DecidableEq

/-- Pydantic model_dump of the signup request: all declared fields as a dict
in declaration order. -/
def UserInput.model_dump (u : UserInput) : List (String × DVal) :=
  [("username", .dstr u.username), ("email", .dstr u.email),
   ("full_name", .dstr u.full_name), ("password", .dstr u.password)]

/-- Modelled from the spec: database.create_document on the user collection
(the database module is not under src/): insert-one returning the new id. -/
def createUserDocument (store : UserStore) (data : List (String × DVal)) :
    Nat × UserStore :=
  (store.nextId, ⟨store.nextId + 1, store.docs ++ [⟨store.nextId, data⟩]⟩)

/-- src/main.py lines 120-137, signup: duplicate email check, duplicate
username check, hash the popped password, store the document with the hash
under password_hash, and return a token for the new id. The salt is the
fresh randomness pwd_context.hash draws; now is the current time. Returns
the response together with the possibly updated store. -/
def signup (store : UserStore) (user : UserInput) (salt : Nat) (now : Int) :
    Except HTTPError JwtToken × UserStore :=
  if (store.docs.find? fun d => dictGet d.fields "email" = some (.dstr user.email)).isSome then
    (.error ⟨400, "Email already registered", none⟩, store)
  else if (store.docs.find? fun d => dictGet d.fields "username" = some (.dstr user.username)).isSome then
    (.error ⟨400, "Username already taken", none⟩, store)
  else
    let data := dictPop user.model_dump "password" ++
      [("password_hash", DVal.dhash (get_password_hash salt user.password))]
    let inserted := createUserDocument store data
    (.ok (create_access_token (some inserted.1) none now), inserted.2)

/-- src/main.py lines 140-150, login: find the user by username, verify the
password against the stored hash, and return a token for the stored id. A
document without an identifiable password_hash makes passlib raise on the
empty-string default of .get, which FastAPI reports as a 500; that branch is
never reached for users created by signup. -/
def login (store : UserStore) (username password : String) (now : Int) :
    Except HTTPError JwtToken :=
  match store.docs.find? fun d => dictGet d.fields "username" = some (.dstr username) with
  | none => .error ⟨400, "Incorrect username or password", none⟩
  | some user_doc =>
    match dictGet user_doc.fields "password_hash" with
    | some (.dhash h) =>
      if verify_password password h then
        .ok (create_access_token (some user_doc.oid) none now)
      else
        .error ⟨400, "Incorrect username or password", none⟩
    | _ => .error ⟨500, "Internal Server Error", none⟩

/-- src/main.py lines 61-81, get_current_user, composed with the
OAuth2PasswordBearer token extraction: decode the token, extract the sub
claim, and fetch the user document by id; every failure past the extraction
raises credentials_exception. The token argument is none when the request
carries no bearer token. -/
def get_current_user (store : UserStore) (now : Int) (token : Option JwtToken) :
    Except HTTPError StoredUser :=
  match token with
  | none => .error missingTokenRejection
  | some t =>
    match jwt_decode SECRET_KEY now t with
    | .error _ => .error credentials_exception
    | .ok payload =>
      match payload.sub with
      | none => .error credentials_exception
      | some user_id =>
        match store.docs.find? fun d => d.oid = user_id with
        | none => .error credentials_exception
        | some user_doc => .ok user_doc

/-- A document of the like collection: ObjectId, post id and user id (the
source stores both ids as strings; valid ObjectId strings are in bijection
with the ids themselves). -/
structure LikeDoc where
  oid : Nat
  post_id : Nat
  user_id : Nat
deriving DecidableEq

/-- The like collection, in insertion order. -/
structure LikeStore where
  nextId : Nat
  docs : List LikeDoc
deriving DecidableEq

/-- Modelled from the spec: pymongo delete_one with an _id filter (the
database is accessed directly here, not through the missing database module):
removes the first document carrying the id. -/
def deleteOneById : List LikeDoc → Nat → List LikeDoc
  | [], _ => []
  | d :: ds, i => if d.oid = i then ds else d :: deleteOneById ds i

/-- The filter of src/main.py line 198: same post and same user. -/
def likeMatches (postId userId : Nat) (d : LikeDoc) : Bool :=
  decide (d.post_id = postId) && decide (d.user_id = userId)

/-- The (post, user) content of a like document, the data the like relation
consists of. -/
def likeRel (d : LikeDoc) : Nat × Nat :=
  (d.post_id, d.user_id)

/-- src/main.py lines 189-203, like_post, for a post_id that parses as an
ObjectId (otherwise the handler answers 404 before reaching this logic; note
the source only checks parseability, not the existence of the post): delete
the first matching like and answer liked = false, or insert a new like and
answer liked = true. -/
def like_post (store : LikeStore) (postId userId : Nat) : Bool × LikeStore :=
  match store.docs.find? (likeMatches postId userId) with
  | some existing => (false, ⟨store.nextId, deleteOneById store.docs existing.oid⟩)
  | none => (true, ⟨store.nextId + 1, store.docs ++ [⟨store.nextId, postId, userId⟩]⟩)

/-! Theorems -/

/-- Claim C3: for every plaintext and salt, verifying a password against its
own hash succeeds, and verifying a different plaintext against that hash
fails; the verdict is a Bool by the type of verify_password. -/
theorem password_hash_verify_correct :
    (∀ (salt : Nat) (p : String), verify_password p (get_password_hash salt p) = true) ∧
    (∀ (salt : Nat) (p1 p2 : String), p1 ≠ p2 →
      verify_password p1 (get_password_hash salt p2) = false) := by
  constructor
  · intro salt p
    simp [verify_password, get_password_hash]
  · intro salt p1 p2 hne
    simp [verify_password, get_password_hash, bcryptDigest]
    exact fun h => absurd h.symm hne

/-- Witness for C3 at concrete inputs. -/
theorem password_hash_verify_correct_witness :
    ("secret1" : String) ≠ "wrong" ∧
    verify_password "wrong" (get_password_hash 3 "secret1") = false :=
  ⟨by decide, password_hash_verify_correct.2 3 "wrong" "secret1" (by decide)⟩

/-- Claim C4: a token issued for subject s with a positive ttl, decoded with
the server secret at any time up to the expiry, yields exactly s as the
subject. -/
theorem token_roundtrip_subject (s : Nat) (ttl now t : Int)
    (httl : 0 < ttl) (ht : t ≤ now + ttl) :
    jwt_decode SECRET_KEY t (create_access_token (some s) (some ttl) now) =
      .ok ⟨some s, now + ttl⟩ := by
  have hd : orDefaultDelta (some ttl) = ttl := by
    simp only [orDefaultDelta]
    rw [if_neg (show ¬ ttl = 0 by omega)]
  simp only [create_access_token, hd, jwt_decode, ne_eq,
    not_true_eq_false, if_false]
  rw [if_neg (show ¬ now + ttl < t by omega)]

/-- Witness for C4 at concrete inputs. -/
theorem token_roundtrip_subject_witness :
    (0 : Int) < 10 ∧ (0 : Int) ≤ 0 + 10 ∧
    jwt_decode SECRET_KEY 0 (create_access_token (some 1) (some 10) 0) =
      .ok ⟨some 1, 0 + 10⟩ :=
  ⟨by decide, by decide, token_roundtrip_subject 1 10 0 0 (by decide) (by decide)⟩

/-- Claim C5: a token verified strictly after its absolute expiry fails with
the expiry error inside the decoder, and the gate reports it as the generic
401 credentials_exception, not a distinct expiry error. -/
theorem expired_token_rejected (sub : Option Nat) (delta : Option Int)
    (now t : Int) (store : UserStore)
    (h : now + orDefaultDelta delta < t) :
    jwt_decode SECRET_KEY t (create_access_token sub delta now) =
      .error .expiredSignature ∧
    get_current_user store t (some (create_access_token sub delta now)) =
      .error credentials_exception := by
  have hdec : jwt_decode SECRET_KEY t (create_access_token sub delta now) =
      .error .expiredSignature := by
    simp only [create_access_token, jwt_decode, ne_eq, not_true_eq_false, if_false]
    rw [if_pos h]
  exact ⟨hdec, by simp [get_current_user, hdec]⟩

/-- Witness for C5 at concrete inputs. -/
theorem expired_token_rejected_witness :
    (0 : Int) + orDefaultDelta none < 90000 ∧
    get_current_user ⟨0, []⟩ 90000 (some (create_access_token (some 1) none 0)) =
      .error credentials_exception :=
  ⟨by decide, (expired_token_rejected (some 1) none 0 90000 ⟨0, []⟩ (by decide)).2⟩

/-- Claim C7 (amended): a token issued with no explicit expires_delta expires
exactly 24 hours (in seconds) after issuance; one issued with an explicit
nonzero delta expires exactly at now + delta; an explicit zero delta is falsy
in Python and falls back to the 24-hour default. -/
theorem token_expiry_default_and_explicit (sub : Option Nat) (now : Int) :
    create_access_token sub none now =
      .signed ⟨sub, now + 24 * 60 * 60⟩ (jwtSign SECRET_KEY ⟨sub, now + 24 * 60 * 60⟩) ∧
    (∀ delta : Int, delta ≠ 0 → create_access_token sub (some delta) now =
      .signed ⟨sub, now + delta⟩ (jwtSign SECRET_KEY ⟨sub, now + delta⟩)) ∧
    create_access_token sub (some 0) now =
      .signed ⟨sub, now + 24 * 60 * 60⟩ (jwtSign SECRET_KEY ⟨sub, now + 24 * 60 * 60⟩) := by
  refine ⟨?_, ?_, ?_⟩
  · simp only [create_access_token, orDefaultDelta, ACCESS_TOKEN_EXPIRE_MINUTES]
    norm_num
  · intro delta hne
    simp only [create_access_token, orDefaultDelta]
    rw [if_neg hne]
  · simp only [create_access_token, orDefaultDelta, ACCESS_TOKEN_EXPIRE_MINUTES, if_pos rfl]
    norm_num

/-- Witness for C7 at a concrete nonzero delta. -/
theorem token_expiry_default_and_explicit_witness :
    (5 : Int) ≠ 0 ∧
    create_access_token (some 1) (some 5) 0 =
      .signed ⟨some 1, 0 + 5⟩ (jwtSign SECRET_KEY ⟨some 1, 0 + 5⟩) :=
  ⟨by decide, (token_expiry_default_and_explicit (some 1) 0).2.1 5 (by decide)⟩

/-- Counterexample to C7 as stated: issuing with the explicit delta
timedelta(0) does not give expiry now + 0; the zero timedelta is falsy, so
the source falls back to the 24-hour default. -/
theorem token_zero_delta_uses_default :
    create_access_token (some 1) (some 0) 0 =
      .signed ⟨some 1, 24 * 60 * 60⟩ (jwtSign SECRET_KEY ⟨some 1, 24 * 60 * 60⟩) ∧
    (24 * 60 * 60 : Int) ≠ 0 + 0 := by
  exact ⟨by decide, by decide⟩

/-- Claim C9: the signature covers the whole payload: replacing the subject,
replacing the expiry, or replacing the signature of an issued token by any
different value makes verification fail with the signature error. -/
theorem token_tamper_rejected (sub : Option Nat) (delta : Option Int)
    (now t expv : Int) (sub2 : Option Nat) (exp2 : Int) (sig2 : JwtSig)
    (hexp : expv = now + orDefaultDelta delta) :
    create_access_token sub delta now =
      .signed ⟨sub, expv⟩ (jwtSign SECRET_KEY ⟨sub, expv⟩) ∧
    (sub2 ≠ sub →
      jwt_decode SECRET_KEY t (.signed ⟨sub2, expv⟩ (jwtSign SECRET_KEY ⟨sub, expv⟩)) =
        .error .invalidSignature) ∧
    (exp2 ≠ expv →
      jwt_decode SECRET_KEY t (.signed ⟨sub, exp2⟩ (jwtSign SECRET_KEY ⟨sub, expv⟩)) =
        .error .invalidSignature) ∧
    (sig2 ≠ jwtSign SECRET_KEY ⟨sub, expv⟩ →
      jwt_decode SECRET_KEY t (.signed ⟨sub, expv⟩ sig2) = .error .invalidSignature) := by
  subst hexp
  refine ⟨rfl, ?_, ?_, ?_⟩
  · intro hne
    have hsig : jwtSign SECRET_KEY ⟨sub, now + orDefaultDelta delta⟩ ≠
        jwtSign SECRET_KEY ⟨sub2, now + orDefaultDelta delta⟩ := by
      simp [jwtSign]
      exact fun h => absurd h.symm hne
    simp [jwt_decode, hsig]
  · intro hne
    have hsig : jwtSign SECRET_KEY ⟨sub, now + orDefaultDelta delta⟩ ≠
        jwtSign SECRET_KEY ⟨sub, exp2⟩ := by
      simp [jwtSign]
      exact fun h => absurd h.symm hne
    simp [jwt_decode, hsig]
  · intro hne
    simp [jwt_decode, hne]

/-- Witness for C9 at concrete inputs. -/
theorem token_tamper_rejected_witness :
    jwt_decode SECRET_KEY 0
      (.signed ⟨some 2, (0 : Int) + orDefaultDelta none⟩
        (jwtSign SECRET_KEY ⟨some 1, (0 : Int) + orDefaultDelta none⟩)) =
      .error .invalidSignature :=
  (token_tamper_rejected (some 1) none 0 0
    ((0 : Int) + orDefaultDelta none)
    (some 2) 0 (jwtSign SECRET_KEY ⟨some 1, 0⟩) rfl).2.1 (by decide)

/-- Claim C6: login with an unknown username and login with a known username
but a wrong password produce the identical response: status 400 with detail
"Incorrect username or password". -/
theorem login_failure_indistinguishable (store : UserStore)
    (u1 pw1 u2 pw2 : String) (d : StoredUser) (h : BcryptHash) (now : Int)
    (hu1 : store.docs.find?
      (fun x => dictGet x.fields "username" = some (.dstr u1)) = none)
    (hu2 : store.docs.find?
      (fun x => dictGet x.fields "username" = some (.dstr u2)) = some d)
    (hhash : dictGet d.fields "password_hash" = some (.dhash h))
    (hverify : verify_password pw2 h = false) :
    login store u1 pw1 now = .error ⟨400, "Incorrect username or password", none⟩ ∧
    login store u2 pw2 now = login store u1 pw1 now := by
  have h1 : login store u1 pw1 now = .error ⟨400, "Incorrect username or password", none⟩ := by
    simp [login, hu1]
  have h2 : login store u2 pw2 now = .error ⟨400, "Incorrect username or password", none⟩ := by
    simp [login, hu2, hhash, hverify]
  exact ⟨h1, h2.trans h1.symm⟩

/-- Witness for C6: a store holding only alice; logging in as bob and logging
in as alice with a wrong password give the same response. -/
theorem login_failure_indistinguishable_witness :
    login ⟨1, [⟨0, [("username", .dstr "alice"),
        ("password_hash", .dhash (get_password_hash 3 "secret1"))]⟩]⟩
      "bob" "x" 0 = .error ⟨400, "Incorrect username or password", none⟩ ∧
    login ⟨1, [⟨0, [("username", .dstr "alice"),
        ("password_hash", .dhash (get_password_hash 3 "secret1"))]⟩]⟩
      "alice" "wrong" 0 =
    login ⟨1, [⟨0, [("username", .dstr "alice"),
        ("password_hash", .dhash (get_password_hash 3 "secret1"))]⟩]⟩
      "bob" "x" 0 :=
  login_failure_indistinguishable _ "bob" "x" "alice" "wrong"
    ⟨0, [("username", .dstr "alice"),
      ("password_hash", .dhash (get_password_hash 3 "secret1"))]⟩
    (get_password_hash 3 "secret1") 0
    (by decide) (by decide) (by decide) (by decide)

/-- Claim C1 (amended): every failure of the gate for a request that does
present a bearer token — malformed token, bad signature, expired token,
payload without a subject, or no user document for the subject — is reported
as the single credentials_exception (401, detail "Could not validate
credentials", Bearer challenge); a request with no bearer token is rejected
with the same 401 status and Bearer challenge but detail "Not
authenticated". -/
theorem gate_rejects_uniformly (store : UserStore) (now : Int) (t : JwtToken) :
    (∀ e : HTTPError, get_current_user store now (some t) = .error e →
      e = credentials_exception) ∧
    get_current_user store now none = .error missingTokenRejection ∧
    missingTokenRejection.status = credentials_exception.status ∧
    missingTokenRejection.wwwAuthenticate = credentials_exception.wwwAuthenticate := by
  refine ⟨?_, rfl, rfl, rfl⟩
  intro e he
  simp only [get_current_user] at he
  split at he
  · exact (Except.error.inj he).symm
  · split at he
    · exact (Except.error.inj he).symm
    · split at he
      · exact (Except.error.inj he).symm
      · cases he

/-- Witness for C1 at a concrete failing request: a malformed token is
rejected with credentials_exception. -/
theorem gate_rejects_uniformly_witness :
    get_current_user ⟨0, []⟩ 0 (some (.malformed "garbage")) =
      .error credentials_exception ∧
    (credentials_exception = credentials_exception ∧
      get_current_user ⟨0, []⟩ 0 none = .error missingTokenRejection) :=
  ⟨rfl, (gate_rejects_uniformly ⟨0, []⟩ 0 (.malformed "garbage")).1
      credentials_exception rfl,
    (gate_rejects_uniformly ⟨0, []⟩ 0 (.malformed "garbage")).2.1⟩

/-- Counterexample to C1 as stated: a protected request with no bearer token
is rejected with detail "Not authenticated", not with detail "Could not
validate credentials", so the missing-token failure is distinguishable from
the other verification failures. -/
theorem gate_missing_token_detail_differs :
    get_current_user ⟨0, []⟩ 0 none =
      .error ⟨401, "Not authenticated", some "Bearer"⟩ ∧
    (HTTPError.mk 401 "Not authenticated" (some "Bearer")) ≠
      ⟨401, "Could not validate credentials", some "Bearer"⟩ :=
  ⟨rfl, by decide⟩

/-- Helper: find? over an append when the first part has no match. -/
theorem find_append_of_none {α : Type} (p : α → Bool) (l1 l2 : List α)
    (h : l1.find? p = none) : (l1 ++ l2).find? p = l2.find? p := by
  induction l1 with
  | nil => rfl
  | cons a l ih =>
    rw [List.find?_eq_none] at h
    have ha : ¬ p a = true := h a (List.mem_cons_self a l)
    rw [List.cons_append, List.find?_cons_of_neg _ ha]
    exact ih (List.find?_eq_none.mpr fun x hx => h x (List.mem_cons_of_mem a hx))

/-- Helper: the document fields signup inserts, spelled out. -/
theorem signup_fields_spec (u : UserInput) (salt : Nat) :
    dictPop u.model_dump "password" ++
      [("password_hash", DVal.dhash (get_password_hash salt u.password))] =
    [("username", .dstr u.username), ("email", .dstr u.email),
     ("full_name", .dstr u.full_name),
     ("password_hash", .dhash (get_password_hash salt u.password))] := rfl

/-- Helper: the email field of the inserted signup document. -/
theorem signup_fields_email (u : UserInput) (salt : Nat) :
    dictGet (dictPop u.model_dump "password" ++
      [("password_hash", DVal.dhash (get_password_hash salt u.password))]) "email" =
    some (.dstr u.email) := rfl

/-- Claim C2: signup on a store with no user holding the email or the
username succeeds with a token that the gate accepts for the newly stored
user, and a second signup with the same email fails with the duplicate-email
error, leaving the store unchanged. -/
theorem signup_then_duplicate_email (store : UserStore) (u u2 : UserInput)
    (salt salt2 : Nat) (now now2 : Int)
    (hids : ∀ d ∈ store.docs, d.oid < store.nextId)
    (hemail : store.docs.find?
      (fun d => dictGet d.fields "email" = some (.dstr u.email)) = none)
    (husername : store.docs.find?
      (fun d => dictGet d.fields "username" = some (.dstr u.username)) = none)
    (hsame : u2.email = u.email) :
    (signup store u salt now).1 =
      .ok (create_access_token (some store.nextId) none now) ∧
    (∃ d : StoredUser,
      get_current_user (signup store u salt now).2 now
        (some (create_access_token (some store.nextId) none now)) = .ok d ∧
      d.oid = store.nextId) ∧
    signup (signup store u salt now).2 u2 salt2 now2 =
      (.error ⟨400, "Email already registered", none⟩, (signup store u salt now).2) := by
  have h1 : signup store u salt now =
      (.ok (create_access_token (some store.nextId) none now),
       ⟨store.nextId + 1, store.docs ++
         [⟨store.nextId, dictPop u.model_dump "password" ++
           [("password_hash", DVal.dhash (get_password_hash salt u.password))]⟩]⟩) := by
    simp [signup, hemail, husername, createUserDocument]
  have hnone : store.docs.find? (fun d => d.oid = store.nextId) = none :=
    List.find?_eq_none.mpr fun x hx => by
      simp only [decide_eq_true_eq]
      exact Nat.ne_of_lt (hids x hx)
  have hfindid : (store.docs ++
      [(⟨store.nextId, dictPop u.model_dump "password" ++
        [("password_hash", DVal.dhash (get_password_hash salt u.password))]⟩ : StoredUser)]).find?
      (fun d => d.oid = store.nextId) =
      some ⟨store.nextId, dictPop u.model_dump "password" ++
        [("password_hash", DVal.dhash (get_password_hash salt u.password))]⟩ := by
    rw [find_append_of_none _ _ _ hnone]
    exact List.find?_cons_of_pos _ (by simp)
  have hdecode : jwt_decode SECRET_KEY now
      (create_access_token (some store.nextId) none now) =
      .ok ⟨some store.nextId, now + 60 * ACCESS_TOKEN_EXPIRE_MINUTES⟩ := by
    simp only [create_access_token, orDefaultDelta, jwt_decode, ne_eq,
      not_true_eq_false, if_false]
    rw [if_neg (show ¬ now + 60 * ACCESS_TOKEN_EXPIRE_MINUTES < now by
      unfold ACCESS_TOKEN_EXPIRE_MINUTES; omega)]
  have hdup : signup
      (⟨store.nextId + 1, store.docs ++
        [⟨store.nextId, dictPop u.model_dump "password" ++
          [("password_hash", DVal.dhash (get_password_hash salt u.password))]⟩]⟩ : UserStore)
      u2 salt2 now2 =
      (.error ⟨400, "Email already registered", none⟩,
       ⟨store.nextId + 1, store.docs ++
         [⟨store.nextId, dictPop u.model_dump "password" ++
           [("password_hash", DVal.dhash (get_password_hash salt u.password))]⟩]⟩) := by
    have hfindemail : (store.docs ++
        [(⟨store.nextId, dictPop u.model_dump "password" ++
          [("password_hash", DVal.dhash (get_password_hash salt u.password))]⟩ : StoredUser)]).find?
        (fun d => dictGet d.fields "email" = some (.dstr u2.email)) =
        some ⟨store.nextId, dictPop u.model_dump "password" ++
          [("password_hash", DVal.dhash (get_password_hash salt u.password))]⟩ := by
      rw [hsame, find_append_of_none _ _ _ hemail]
      exact List.find?_cons_of_pos _ (decide_eq_true (signup_fields_email u salt))
    simp [signup, hfindemail]
  refine ⟨by rw [h1], ⟨⟨store.nextId, dictPop u.model_dump "password" ++
      [("password_hash", DVal.dhash (get_password_hash salt u.password))]⟩, ?_, rfl⟩,
    by rw [h1]; exact hdup⟩
  rw [h1]
  simp only [get_current_user, hdecode, hfindid]

/-- Witness for C2: alice signs up on the empty store and gets a token; the
applied theorem also covers the duplicate-email rejection of bob. -/
theorem signup_then_duplicate_email_witness :
    ("a@x.com" : String) = "a@x.com" ∧
    (signup ⟨0, []⟩ ⟨"alice", "a@x.com", "Alice", "secret1"⟩ 3 0).1 =
      .ok (create_access_token (some 0) none 0) :=
  ⟨rfl, (signup_then_duplicate_email ⟨0, []⟩ ⟨"alice", "a@x.com", "Alice", "secret1"⟩
    ⟨"bob", "a@x.com", "Bob", "pw"⟩ 3 4 0 5 (by simp) rfl rfl rfl).1⟩

/-- Claim C8: the document signup inserts stores the salted hash under
password_hash, has no password field at all, and (as long as the password
does not coincide with one of the profile strings) the plaintext appears in
no field value. -/
theorem signup_stores_only_hash (store : UserStore) (u : UserInput)
    (salt : Nat) (now : Int)
    (hemail : store.docs.find?
      (fun d => dictGet d.fields "email" = some (.dstr u.email)) = none)
    (husername : store.docs.find?
      (fun d => dictGet d.fields "username" = some (.dstr u.username)) = none) :
    (signup store u salt now).2.docs = store.docs ++
      [⟨store.nextId,
        [("username", .dstr u.username), ("email", .dstr u.email),
         ("full_name", .dstr u.full_name),
         ("password_hash", .dhash (get_password_hash salt u.password))]⟩] ∧
    dictGet [("username", .dstr u.username), ("email", .dstr u.email),
         ("full_name", .dstr u.full_name),
         ("password_hash", .dhash (get_password_hash salt u.password))] "password" = none ∧
    dictGet [("username", .dstr u.username), ("email", .dstr u.email),
         ("full_name", .dstr u.full_name),
         ("password_hash", .dhash (get_password_hash salt u.password))] "password_hash" =
      some (.dhash (get_password_hash salt u.password)) ∧
    (u.password ≠ u.username → u.password ≠ u.email → u.password ≠ u.full_name →
      ∀ kv ∈ ([("username", .dstr u.username), ("email", .dstr u.email),
         ("full_name", .dstr u.full_name),
         ("password_hash", .dhash (get_password_hash salt u.password))] :
           List (String × DVal)), kv.2 ≠ DVal.dstr u.password) := by
  refine ⟨?_, rfl, rfl, ?_⟩
  · simp only [signup, hemail, husername, createUserDocument,
      Option.isSome_none, Bool.false_eq_true, if_false, signup_fields_spec]
  · intro h1 h2 h3 kv hkv
    simp only [List.mem_cons, List.not_mem_nil, or_false] at hkv
    rcases hkv with rfl | rfl | rfl | rfl
    · simp only [ne_eq, DVal.dstr.injEq]
      exact fun h => h1 h.symm
    · simp only [ne_eq, DVal.dstr.injEq]
      exact fun h => h2 h.symm
    · simp only [ne_eq, DVal.dstr.injEq]
      exact fun h => h3 h.symm
    · simp

/-- Witness for C8 at concrete inputs: the stored fields of alice. -/
theorem signup_stores_only_hash_witness :
    (signup ⟨0, []⟩ ⟨"alice", "a@x.com", "Alice", "secret1"⟩ 3 0).2.docs =
      [] ++ [⟨0, [("username", .dstr "alice"), ("email", .dstr "a@x.com"),
        ("full_name", .dstr "Alice"),
        ("password_hash", .dhash (get_password_hash 3 "secret1"))]⟩] :=
  (signup_stores_only_hash ⟨0, []⟩ ⟨"alice", "a@x.com", "Alice", "secret1"⟩
    3 0 rfl rfl).1

/-- Helper: a successful find? splits the list around the first match. -/
theorem find_some_split {α : Type} (p : α → Bool) (l : List α) (e : α)
    (h : l.find? p = some e) :
    ∃ l1 l2, l = l1 ++ e :: l2 ∧ (∀ x ∈ l1, ¬ p x = true) ∧ p e = true := by
  induction l with
  | nil => cases h
  | cons a l ih =>
    cases hpa : p a with
    | true =>
      rw [List.find?_cons_of_pos _ hpa] at h
      injection h with h
      subst h
      exact ⟨[], l, rfl, by simp, hpa⟩
    | false =>
      rw [List.find?_cons_of_neg _ (by simp [hpa])] at h
      obtain ⟨l1, l2, rfl, hl1, hpe⟩ := ih h
      refine ⟨a :: l1, l2, rfl, ?_, hpe⟩
      intro x hx
      rcases List.mem_cons.mp hx with rfl | hx2
      · simp [hpa]
      · exact hl1 x hx2

/-- Helper: deleting the id of the head of the suffix removes exactly that
document when the prefix carries other ids. -/
theorem deleteOneById_middle (l1 l2 : List LikeDoc) (e : LikeDoc)
    (h : ∀ d ∈ l1, d.oid ≠ e.oid) :
    deleteOneById (l1 ++ e :: l2) e.oid = l1 ++ l2 := by
  induction l1 with
  | nil => simp [deleteOneById]
  | cons a l ih =>
    rw [List.cons_append, deleteOneById]
    rw [if_neg (h a (List.mem_cons_self a l))]
    rw [ih fun d hd => h d (List.mem_cons_of_mem a hd), List.cons_append]

/-- Claim C10: for an authenticated user and a post id that parses as an
ObjectId, like_post toggles: when a like by that user on that post exists it
deletes exactly that document and answers liked = false, otherwise it inserts
exactly one such document and answers liked = true; two successive calls
leave the stored like relation (the (post, user) content of the collection)
unchanged up to permutation. -/
theorem like_post_toggles (store : LikeStore) (postId userId : Nat)
    (hids : ∀ d ∈ store.docs, d.oid < store.nextId)
    (hnodup : (store.docs.map LikeDoc.oid).Nodup)
    (hcount : store.docs.countP (likeMatches postId userId) ≤ 1) :
    (∀ e, store.docs.find? (likeMatches postId userId) = some e →
      ∃ l1 l2, store.docs = l1 ++ e :: l2 ∧
        like_post store postId userId = (false, ⟨store.nextId, l1 ++ l2⟩)) ∧
    (store.docs.find? (likeMatches postId userId) = none →
      like_post store postId userId =
        (true, ⟨store.nextId + 1, store.docs ++ [⟨store.nextId, postId, userId⟩]⟩)) ∧
    List.Perm
      ((like_post (like_post store postId userId).2 postId userId).2.docs.map likeRel)
      (store.docs.map likeRel) := by
  cases hfind : store.docs.find? (likeMatches postId userId) with
  | none =>
    have hcall1 : like_post store postId userId =
        (true, ⟨store.nextId + 1, store.docs ++ [⟨store.nextId, postId, userId⟩]⟩) := by
      simp [like_post, hfind]
    refine ⟨fun e he => Option.noConfusion he, fun _ => hcall1, ?_⟩
    rw [hcall1]
    have hfind2 : (store.docs ++ [(⟨store.nextId, postId, userId⟩ : LikeDoc)]).find?
        (likeMatches postId userId) = some ⟨store.nextId, postId, userId⟩ := by
      rw [find_append_of_none _ _ _ hfind]
      exact List.find?_cons_of_pos _ (by simp [likeMatches])
    have hdel : deleteOneById
        (store.docs ++ [(⟨store.nextId, postId, userId⟩ : LikeDoc)]) store.nextId =
        store.docs := by
      have := deleteOneById_middle store.docs []
        ⟨store.nextId, postId, userId⟩
        (fun d hd => Nat.ne_of_lt (hids d hd))
      simpa using this
    simp only [like_post, hfind2, hdel]
    exact List.Perm.refl _
  | some e =>
    obtain ⟨l1, l2, hdecomp, hl1, hpe⟩ := find_some_split _ _ _ hfind
    have hl1oid : ∀ x ∈ l1, x.oid ≠ e.oid := by
      intro x hx heq
      have hmem : (l1.map LikeDoc.oid).Disjoint (e.oid :: l2.map LikeDoc.oid) := by
        have := hnodup
        rw [hdecomp, List.map_append, List.map_cons, List.nodup_append] at this
        exact this.2.2
      exact hmem (heq ▸ List.mem_map_of_mem LikeDoc.oid hx)
        (List.mem_cons_self e.oid (l2.map LikeDoc.oid))
    have hcall1 : like_post store postId userId =
        (false, ⟨store.nextId, l1 ++ l2⟩) := by
      rw [like_post, hfind]
      dsimp only
      rw [hdecomp, deleteOneById_middle l1 l2 e hl1oid]
    have hl2 : ∀ x ∈ l2, ¬ likeMatches postId userId x = true := by
      have hc := hcount
      rw [hdecomp, List.countP_append, List.countP_cons_of_pos _ _ hpe] at hc
      have : l2.countP (likeMatches postId userId) = 0 := by omega
      exact fun x hx => (List.countP_eq_zero.mp this) x hx
    have hfind2 : (l1 ++ l2).find? (likeMatches postId userId) = none := by
      rw [List.find?_eq_none]
      intro x hx
      rcases List.mem_append.mp hx with hx1 | hx2
      · exact hl1 x hx1
      · exact hl2 x hx2
    have hcall2 : like_post (⟨store.nextId, l1 ++ l2⟩ : LikeStore) postId userId =
        (true, ⟨store.nextId + 1, (l1 ++ l2) ++ [⟨store.nextId, postId, userId⟩]⟩) := by
      simp [like_post, hfind2]
    have hrel : likeRel e = (postId, userId) := by
      simp only [likeMatches, Bool.and_eq_true, decide_eq_true_eq] at hpe
      simp [likeRel, hpe.1, hpe.2]
    refine ⟨?_, ?_, ?_⟩
    · intro e2 he2
      injection he2 with he2
      subst he2
      exact ⟨l1, l2, hdecomp, hcall1⟩
    · intro hcontra
      exact Option.noConfusion hcontra
    · rw [hcall1]
      rw [hcall2, hdecomp]
      simp only [List.map_append, List.map_cons, List.map_singleton, hrel]
      rw [List.append_assoc]
      exact List.Perm.append_left (l1.map likeRel)
        ((List.perm_append_singleton _ _).trans (List.Perm.refl _))

/-- Witness for C10: toggling twice on a store with one like preserves the
like relation. -/
theorem like_post_toggles_witness :
    List.Perm
      ((like_post (like_post ⟨1, [⟨0, 5, 7⟩]⟩ 5 7).2 5 7).2.docs.map likeRel)
      (((⟨1, [⟨0, 5, 7⟩]⟩ : LikeStore).docs).map likeRel) :=
  (like_post_toggles ⟨1, [⟨0, 5, 7⟩]⟩ 5 7 (by decide) (by decide) (by decide)).2.2

/-- Counterexample to C10 as literally stated: starting from a store holding
the like document with id 0, two successive calls end with a like document
carrying the fresh id 1, so the collection of documents is not left
unchanged — only the (post, user) content is. -/
theorem like_post_double_toggle_changes_ids :
    (like_post (like_post ⟨1, [⟨0, 5, 7⟩]⟩ 5 7).2 5 7).2.docs = [⟨1, 5, 7⟩] ∧
    ([(⟨1, 5, 7⟩ : LikeDoc)] ≠ [⟨0, 5, 7⟩]) := by
  constructor
  · rfl
  · decide
